import Mathlib

/-!
Shallow embedding of `cfnlambda.py` (gene1wood/cfnlambda): the `Status`
class, the `cfn_response` function and the `handler_wrapper` closure
produced by `handler_decorator`, together with the JSON serialization
semantics of `json.dumps` with the default encoder.

Python-specific semantics that the embedding makes explicit:
  * `Status` defines no `__eq__`, so `status == Status.FAILED` in
    `handler_wrapper` is *identity* comparison against the module-level
    singleton `Status.FAILED`.  `StatusRef` tracks whether a `Status`
    object is one of the two module singletons or a freshly constructed
    object (`Status.getFailed`, `Status.getFinished`, or any `Status`
    built by the handler itself).
  * Comparing a `Status` object with a string using `==` yields `False`
    (no `__eq__`, different types), which matters inside
    `Status.isSuccess` / `Status.isFailed` for doubly-wrapped statuses.
  * `json.dumps` with the default encoder raises `TypeError` on values
    that are not natively serializable (sets, `Status` objects, ...);
    tuples serialize as JSON arrays.
  * Exceptions raised by expressions that are not inside a `try` block
    (the `json.dumps(body)` call in `cfn_response`, the
    `delete_log_group` call, attribute errors on non-`Status` values
    bound to `status`) propagate out of `handler_wrapper`; they are
    modelled with `Except String`.
-/

namespace Cfnlambda

/-- The `Status` class: `value` is either a string (for the base
constants / `getFailed`) or another `Status` (after `getFinished`);
`reason` is an optional string. -/
inductive Status : Type where
  | base (value : String) (reason : Option String) : Status
  | finished (value : Status) (reason : Option String) : Status
deriving Repr

/-- `Status.isFinished`: `isinstance(self.value, Status)`. -/
def Status.isFinished : Status → Bool
  | .base _ _ => false
  | .finished _ _ => true

/-- `Status.isSuccess`: `self.value == 'SUCCESS' or (self.isFinished()
and self.value.value == 'SUCCESS')`.  When `self.value` is itself a
doubly-wrapped `Status`, `self.value.value` is a `Status` object and the
`==` comparison with the string is `False`. -/
def Status.isSuccess : Status → Bool
  | .base v _ => v == "SUCCESS"
  | .finished (.base v _) _ => v == "SUCCESS"
  | .finished (.finished _ _) _ => false

/-- `Status.isFailed`, symmetric to `isSuccess`. -/
def Status.isFailed : Status → Bool
  | .base v _ => v == "FAILED"
  | .finished (.base v _) _ => v == "FAILED"
  | .finished (.finished _ _) _ => false

/-- `Status.getFailed(reason)` = `Status('FAILED', reason)`. -/
def Status.getFailed (reason : String) : Status :=
  .base "FAILED" (some reason)

/-- `Status.getFinished(status)` = `Status(status)`. -/
def Status.getFinished (status : Status) : Status :=
  .finished status none

/-- A reference to a `Status` *object*, remembering whether it is one of
the module-level singletons `Status.SUCCESS` / `Status.FAILED` (needed
because `status == Status.FAILED` is identity comparison). -/
inductive StatusRef : Type where
  | successSingleton : StatusRef
  | failedSingleton : StatusRef
  | fresh (s : Status) : StatusRef
deriving Repr

/-- The `Status` value a `StatusRef` refers to. -/
def StatusRef.deref : StatusRef → Status
  | .successSingleton => .base "SUCCESS" none
  | .failedSingleton => .base "FAILED" none
  | .fresh s => s

/-- Python values that can flow through `handler_wrapper`:
the handler's return value, result-data mappings and their entries. -/
inductive PyVal : Type where
  | none : PyVal
  | bool (b : Bool) : PyVal
  | int (n : Int) : PyVal
  | float (q : Rat) : PyVal
  | str (s : String) : PyVal
  | dict (entries : List (String × PyVal)) : PyVal
  | tuple (elems : List PyVal) : PyVal
  | set (elems : List PyVal) : PyVal
  | status (ref : StatusRef) : PyVal

/-- Python truthiness (`bool(v)`). -/
def truthy : PyVal → Bool
  | .none => false
  | .bool b => b
  | .int n => n != 0
  | .float q => q != 0
  | .str s => s != ""
  | .dict kvs => !kvs.isEmpty
  | .tuple xs => !xs.isEmpty
  | .set xs => !xs.isEmpty
  | .status _ => true

/-- JSON documents, the target of `json.dumps`. -/
inductive Json : Type where
  | null : Json
  | bool (b : Bool) : Json
  | num (q : Rat) : Json
  | str (s : String) : Json
  | arr (elems : List Json) : Json
  | obj (fields : List (String × Json)) : Json

mutual

/-- `json.dumps` with the default `JSONEncoder`: natively serializable
values pass through (tuples become arrays); anything else raises
`TypeError`.  The delivered wire body is this JSON document. -/
def pyToJson : PyVal → Except String Json
  | .none => .ok .null
  | .bool b => .ok (.bool b)
  | .int n => .ok (.num n)
  | .float q => .ok (.num q)
  | .str s => .ok (.str s)
  | .dict kvs =>
      match pyToJsonFields kvs with
      | .error e => .error e
      | .ok fields => .ok (.obj fields)
  | .tuple xs =>
      match pyToJsonList xs with
      | .error e => .error e
      | .ok elems => .ok (.arr elems)
  | .set _ => .error "TypeError: set is not JSON serializable"
  | .status _ => .error "TypeError: Status is not JSON serializable"

/-- Serialize the entries of a mapping. -/
def pyToJsonFields : List (String × PyVal) → Except String (List (String × Json))
  | [] => .ok []
  | (k, v) :: rest =>
      match pyToJson v with
      | .error e => .error e
      | .ok j =>
          match pyToJsonFields rest with
          | .error e => .error e
          | .ok fields => .ok ((k, j) :: fields)

/-- Serialize the elements of a tuple. -/
def pyToJsonList : List PyVal → Except String (List Json)
  | [] => .ok []
  | v :: rest =>
      match pyToJson v with
      | .error e => .error e
      | .ok j =>
          match pyToJsonList rest with
          | .error e => .error e
          | .ok elems => .ok (j :: elems)

end

/-- Field lookup in a JSON object (used to state claims about the
delivered body). -/
def Json.getField : Json → String → Option Json
  | .obj fields, k => (fields.find? (fun f => f.1 == k)).map (fun f => f.2)
  | _, _ => Option.none

/-- The CloudFormation custom-resource request fields read by the code. -/
structure Event : Type where
  RequestType : String
  StackId : String
  RequestId : String
  LogicalResourceId : String
  ResponseURL : String
deriving Repr

/-- The Lambda context fields read by the code. -/
structure Context : Type where
  log_stream_name : String
  log_group_name : String
deriving Repr

/-- `cfn_response(event, context, response_status, response_data,
physical_resource_id)`.  Returns `.ok Option.none` when the status is
`Finished` (the call is a noop, nothing is delivered), `.ok (some body)`
when the JSON `body` was PUT to the response URL, and `.error` when the
`json.dumps(body)` call (which is *outside* the function's `try` block)
raises `TypeError`.  HTTP transport errors are caught inside the `try`
and change nothing observable here. -/
def cfn_response (event : Event) (context : Context) (response_status : Status)
    (response_data : PyVal) (physical_resource_id : Option String) :
    Except String (Option Json) :=
  match response_status with
  | .finished _ _ => .ok Option.none
  | .base v reason =>
      let prid := physical_resource_id.getD context.log_stream_name
      let default_reason :=
        "See the details in CloudWatch Log Stream: " ++ context.log_stream_name
      let reasonStr := match reason with
        | some r => if r == "" then default_reason else r
        | Option.none => default_reason
      match pyToJson response_data with
      | .error e => .error e
      | .ok dataJson =>
          .ok (some (Json.obj [
            ("Status", .str v),
            ("Reason", .str reasonStr),
            ("PhysicalResourceId", .str prid),
            ("StackId", .str event.StackId),
            ("RequestId", .str event.RequestId),
            ("LogicalResourceId", .str event.LogicalResourceId),
            ("Data", dataJson)]))

/-- What the raw handler call did: returned a value or raised an
exception with message `e.message`. -/
inductive HandlerOutcome : Type where
  | ret (v : PyVal) : HandlerOutcome
  | raise (msg : String) : HandlerOutcome

/-- The `status` local variable of `handler_wrapper`: usually a `Status`
object, but the tuple unpacking `status, result = result` can bind any
value to it (the code only checks that `result[1]` is a `Status`). -/
inductive StatusLike : Type where
  | ref (r : StatusRef) : StatusLike
  | other (v : PyVal) : StatusLike

/-- `status == Status.FAILED`: identity comparison against the module
singleton (the `Status` class defines no `__eq__`). -/
def StatusLike.isFailedSingleton : StatusLike → Bool
  | .ref .failedSingleton => true
  | _ => false

/-- `status.isSuccess()`: raises `AttributeError` when the tuple
unpacking bound a non-`Status` value to `status`. -/
def StatusLike.pyIsSuccess : StatusLike → Except String Bool
  | .ref r => .ok r.deref.isSuccess
  | .other _ => .error "AttributeError: no attribute isSuccess"

/-- `status.isFinished()`, same `AttributeError` caveat. -/
def StatusLike.pyIsFinished : StatusLike → Except String Bool
  | .ref r => .ok r.deref.isFinished
  | .other _ => .error "AttributeError: no attribute isFinished"

/-- View a handler-returned value bound to `status` by the unpacking. -/
def statusLikeOf : PyVal → StatusLike
  | .status r => .ref r
  | v => .other v

/-- `result.get('result', '')`: only mappings have `.get`. -/
def pyDictGet (v : PyVal) (k : String) (dflt : PyVal) : Except String PyVal :=
  match v with
  | .dict kvs => .ok (((kvs.find? (fun p => p.1 == k)).map (fun p => p.2)).getD dflt)
  | _ => .error "AttributeError: no attribute get"

/-- `result[k] = nv` on a mapping (update in place, else append). -/
def pyDictSet (v : PyVal) (k : String) (nv : PyVal) : Except String PyVal :=
  match v with
  | .dict kvs =>
      if kvs.any (fun p => p.1 == k) then
        .ok (.dict (kvs.map (fun p => if p.1 == k then (k, nv) else p)))
      else
        .ok (.dict (kvs ++ [(k, nv)]))
  | _ => .error "TypeError: does not support item assignment"

/-- String concatenation `prev + suffix`: `TypeError` unless `prev` is a
string. -/
def pyStrAdd (prev : PyVal) (suffix : String) : Except String PyVal :=
  match prev with
  | .str s => .ok (.str (s ++ suffix))
  | _ => .error "TypeError: cannot concatenate non-string"

/-- Lines 259-282 of `handler_wrapper`: run the handler inside
`try/except`, normalize its outcome to the `(status, result)` pair, then
apply `if not result: result = {}`.  This fragment cannot raise. -/
def normalizeResult (handlerName : String) (outcome : HandlerOutcome) :
    StatusLike × PyVal :=
  match outcome with
  | .raise msg =>
      -- `status = Status.getFailed('Function %s failed due to exception "%s".' ...)`
      (.ref (.fresh (Status.getFailed
          ("Function " ++ handlerName ++ " failed due to exception \"" ++ msg ++ "\"."))),
       .dict [])
  | .ret v =>
      let sr : StatusLike × PyVal :=
        match v with
        | .status r => (.ref r, .none)
        | .tuple [a, b] =>
            if b matches .status _ then
              (statusLikeOf a, b)
            else
              (if truthy v then .ref .successSingleton else .ref .failedSingleton, v)
        | _ =>
            (if truthy v then .ref .successSingleton else .ref .failedSingleton, v)
      let sr : StatusLike × PyVal :=
        if sr.2 matches .bool false then
          (.ref .failedSingleton,
           .dict [("result", .str ("Function " ++ handlerName ++ " returned False."))])
        else sr
      (sr.1, if truthy sr.2 then sr.2 else .dict [])

/-- The warning appended by the hide-stack-delete-failure rewrite. -/
def deleteWarning : String :=
  "There may be resources created by the AWS Lambda that have not " ++
  "been deleted and cleaned up despite the fact that the stack " ++
  "status may be DELETE_COMPLETE."

/-- Lines 285-293: the hide-stack-delete-failure rewrite (only reached
when `event['RequestType'] == 'Delete'`). -/
def hideDeleteFailureStep (hide_stack_delete_failure : Bool)
    (st : StatusLike) (res : PyVal) : Except String (StatusLike × PyVal) :=
  if st.isFailedSingleton && hide_stack_delete_failure then
    match pyDictGet res "result" (.str "") with
    | .error e => .error e
    | .ok prev =>
        match pyStrAdd prev (" " ++ deleteWarning) with
        | .error e => .error e
        | .ok appended =>
            match pyDictSet res "result" appended with
            | .error e => .error e
            | .ok res' => .ok (.ref .successSingleton, res')
  else
    .ok (st, res)

/-- Observable behaviour of one `handler_wrapper` invocation. -/
structure RunResult : Type where
  /-- The wrapper's return value, or the exception that escaped it. -/
  retval : Except String PyVal
  /-- The JSON body PUT to the response URL, if a delivery happened. -/
  delivered : Option Json
  /-- The log-group name passed to `delete_log_group`, if it was called. -/
  logDeleteCalled : Option String

/-- Lines 300-307: coerce `result` to a mapping, then deliver through
`cfn_response` unless the status is `Finished`. -/
def finishStep (event : Event) (context : Context) (st : StatusLike)
    (res : PyVal) (logcall : Option String) : RunResult :=
  let res' : PyVal :=
    match res with
    | .dict kvs => .dict kvs
    | v => .dict [("result", v)]
  match st.pyIsFinished with
  | .error e => ⟨.error e, Option.none, logcall⟩
  | .ok true => ⟨.ok res', Option.none, logcall⟩
  | .ok false =>
      match st with
      | .other _ => ⟨.error "unreachable", Option.none, logcall⟩
      | .ref r =>
          match cfn_response event context r.deref res' Option.none with
          | .error e => ⟨.error e, Option.none, logcall⟩
          | .ok body => ⟨.ok res', body, logcall⟩

/-- `handler_wrapper(event, context)` as produced by
`handler_decorator(delete_logs, hide_stack_delete_failure)` applied to a
handler named `handlerName` whose call behaves as `outcome`.
`dlgError = some e` means the `boto3` `delete_log_group` call raises
exception `e` when invoked. -/
def handler_wrapper (delete_logs hide_stack_delete_failure : Bool)
    (handlerName : String) (event : Event) (context : Context)
    (outcome : HandlerOutcome) (dlgError : Option String) : RunResult :=
  let (st, res) := normalizeResult handlerName outcome
  if event.RequestType == "Delete" then
    match hideDeleteFailureStep hide_stack_delete_failure st res with
    | .error e => ⟨.error e, Option.none, Option.none⟩
    | .ok (st', res') =>
        match st'.pyIsSuccess with
        | .error e => ⟨.error e, Option.none, Option.none⟩
        | .ok isSucc =>
            if isSucc && delete_logs then
              match dlgError with
              | some e => ⟨.error e, Option.none, some context.log_group_name⟩
              | Option.none =>
                  finishStep event context st' res' (some context.log_group_name)
            else
              finishStep event context st' res' Option.none
  else
    finishStep event context st res Option.none

/-- Field `k` of the JSON body delivered during a run, if any. -/
def deliveredField (r : RunResult) (k : String) : Option Json :=
  r.delivered.bind (fun b => b.getField k)

/-- A sample Create request. -/
def sampleCreateEvent : Event :=
  ⟨"Create", "arn:stack", "req-1", "MyResource", "https://host/cb"⟩

/-- A sample Delete request. -/
def sampleDeleteEvent : Event :=
  ⟨"Delete", "arn:stack", "req-1", "MyResource", "https://host/cb"⟩

/-- A sample Lambda context. -/
def sampleContext : Context := ⟨"stream-1", "group-1"⟩

/-- Claim C10: a base `Status` built with value `'SUCCESS'` or `'FAILED'`
is not finished, `Status.getFinished` of it is finished, and wrapping
with `getFinished` preserves both the `isSuccess` and the `isFailed`
queries. -/
theorem C10_getFinished_preserves_queries (v : String) (r : Option String)
    (h : v = "SUCCESS" ∨ v = "FAILED") :
    (Status.base v r).isFinished = false ∧
    (Status.getFinished (Status.base v r)).isFinished = true ∧
    (Status.getFinished (Status.base v r)).isSuccess = (Status.base v r).isSuccess ∧
    (Status.getFinished (Status.base v r)).isFailed = (Status.base v r).isFailed :=
  ⟨rfl, rfl, rfl, rfl⟩

/-- Witness for C10 at `Status('SUCCESS')`. -/
theorem C10_getFinished_preserves_queries_witness :
    (Status.base "SUCCESS" Option.none).isFinished = false ∧
    (Status.getFinished (Status.base "SUCCESS" Option.none)).isFinished = true ∧
    (Status.getFinished (Status.base "SUCCESS" Option.none)).isSuccess
      = (Status.base "SUCCESS" Option.none).isSuccess ∧
    (Status.getFinished (Status.base "SUCCESS" Option.none)).isFailed
      = (Status.base "SUCCESS" Option.none).isFailed :=
  C10_getFinished_preserves_queries "SUCCESS" Option.none (Or.inl rfl)

/-- Claim C6 (counterexample): a handler that returns nothing (`None`)
does *not* normalize to SUCCESS: `None` is false-like, so
`status = Status.SUCCESS if result else Status.FAILED` picks
`Status.FAILED`, whose `isSuccess()` is false. -/
theorem C6_none_not_success_cex :
    ¬ ((normalizeResult "f" (.ret .none)).1.pyIsSuccess = .ok true) := by
  intro h
  injection h with h1
  exact Bool.noConfusion h1

/-- Claim C6 (amended): a handler that returns nothing normalizes to the
`Status.FAILED` singleton with an empty result-data mapping. -/
theorem C6_none_is_failed_empty (name : String) :
    normalizeResult name (.ret .none) = (.ref .failedSingleton, .dict []) := rfl

/-- Claim C7: every false-like handler return value that is not a
`Status` object normalizes to the FAILED status. -/
theorem C7_falsy_is_failed (name : String) (v : PyVal)
    (hfalsy : truthy v = false) (hnotstatus : ∀ r, v ≠ PyVal.status r) :
    (normalizeResult name (.ret v)).1 = .ref .failedSingleton := by
  cases v with
  | none => rfl
  | bool b =>
      cases b with
      | false => rfl
      | true => simp [truthy] at hfalsy
  | int n =>
      simp only [truthy] at hfalsy
      simp [normalizeResult, truthy, hfalsy]
  | float q =>
      simp only [truthy] at hfalsy
      simp [normalizeResult, truthy, hfalsy]
  | str s =>
      simp only [truthy] at hfalsy
      simp [normalizeResult, truthy, hfalsy]
  | dict kvs =>
      cases kvs with
      | nil => rfl
      | cons a rest => simp [truthy] at hfalsy
  | tuple xs =>
      cases xs with
      | nil => rfl
      | cons a rest => simp [truthy] at hfalsy
  | set xs =>
      cases xs with
      | nil => rfl
      | cons a rest => simp [truthy] at hfalsy
  | status r => exact absurd rfl (hnotstatus r)

/-- Witness for C7 at the false-like value `0`. -/
theorem C7_falsy_is_failed_witness :
    truthy (PyVal.int 0) = false ∧ (∀ r, PyVal.int 0 ≠ PyVal.status r) ∧
    (normalizeResult "f" (.ret (.int 0))).1 = .ref .failedSingleton :=
  ⟨rfl, fun _ h => PyVal.noConfusion h,
   C7_falsy_is_failed "f" (.int 0) rfl (fun _ h => PyVal.noConfusion h)⟩

/-- Claim C2 (code bug): a handler returning the 2-tuple
`(Status.getFailed('failure reason'), {'a': 'b'})` is *not* normalized to
that explicit status with that mapping.  Line 265 tests
`isinstance(result[1], Status)` — the second element — while the
unpacking (and the docstring) expect the `Status` first, so the tuple
falls into the truthiness branch: the outcome becomes `Status.SUCCESS`
with the whole tuple as result, and `json.dumps` then raises `TypeError`
on the `Status` inside it, which escapes `handler_wrapper` with nothing
delivered. -/
theorem C2_status_mapping_tuple_mishandled :
    normalizeResult "f"
      (.ret (.tuple [.status (.fresh (Status.getFailed "failure reason")),
                     .dict [("a", .str "b")]]))
      = (.ref .successSingleton,
         .tuple [.status (.fresh (Status.getFailed "failure reason")),
                 .dict [("a", .str "b")]]) ∧
    handler_wrapper true true "f" sampleCreateEvent sampleContext
      (.ret (.tuple [.status (.fresh (Status.getFailed "failure reason")),
                     .dict [("a", .str "b")]])) Option.none
      = ⟨.error "TypeError: Status is not JSON serializable",
         Option.none, Option.none⟩ :=
  ⟨rfl, rfl⟩

/-- Claim C3 (code bug): Delete request, `hide_stack_delete_failure`
enabled, handler raises `Exception('boom')`.  The FAILED outcome built by
`Status.getFailed` is a fresh object, and `status == Status.FAILED` on
line 285 is an identity comparison (no `__eq__`), so the rewrite to
SUCCESS never fires: the delivered status stays FAILED and `Data`
carries no warning, contradicting the decorator's documentation. -/
theorem C3_exception_failure_not_hidden :
    handler_wrapper true true "f" sampleDeleteEvent sampleContext
      (.raise "boom") Option.none
      = ⟨.ok (.dict []),
         some (Json.obj [
           ("Status", .str "FAILED"),
           ("Reason", .str "Function f failed due to exception \"boom\"."),
           ("PhysicalResourceId", .str "stream-1"),
           ("StackId", .str "arn:stack"),
           ("RequestId", .str "req-1"),
           ("LogicalResourceId", .str "MyResource"),
           ("Data", .obj [])]),
         Option.none⟩ := rfl

/-- Claim C5 (code bug): a handler returning the mapping
`{'x': set([1])}` makes `json.dumps(body)` on line 154 — which uses the
default encoder, not `PythonObjectEncoder`, and sits *outside* the `try`
block of `cfn_response` — raise `TypeError`; the exception escapes
`handler_wrapper` and nothing is delivered, contradicting the documented
"No exceptions raised" contract. -/
theorem C5_unencodable_escapes :
    handler_wrapper true true "f" sampleCreateEvent sampleContext
      (.ret (.dict [("x", .set [.int 1])])) Option.none
      = ⟨.error "TypeError: set is not JSON serializable",
         Option.none, Option.none⟩ := rfl

/-- Claim C9 (code bug): Delete request, SUCCESS outcome, `delete_logs`
enabled, and the `delete_log_group` call raises (modelled by
`dlgError = some "AccessDeniedException"`).  The call on line 298 is not
inside any `try`, so the exception escapes `handler_wrapper` and the
callback response is never delivered. -/
theorem C9_delete_log_failure_escapes :
    handler_wrapper true true "f" sampleDeleteEvent sampleContext
      (.ret (.dict [("ok", .str "y")])) (some "AccessDeniedException")
      = ⟨.error "AccessDeniedException", Option.none, some "group-1"⟩ := rfl

/-- Claim C4 (counterexample): for a handler returning the bare mapping
`{"sum": 3.5}`, the delivered `Data` field is *not*
`{"sum": "3.5"}`: `cfn_response` serializes with the plain default
encoder, which passes the float through as a JSON number. -/
theorem C4_data_not_stringified_cex :
    ¬ (deliveredField
         (handler_wrapper true true "f" sampleCreateEvent sampleContext
           (.ret (.dict [("sum", .float (7/2))])) Option.none) "Data"
       = some (Json.obj [("sum", Json.str "3.5")])) := by
  intro h
  have h0 : some (Json.obj [("sum", Json.num (7/2))])
      = some (Json.obj [("sum", Json.str "3.5")]) := h
  injection h0 with h1
  injection h1 with h2
  injection h2 with h3 h4
  injection h3 with h5 h6
  exact Json.noConfusion h6

/-- Claim C4 (amended): for a handler returning the bare mapping
`{"sum": 3.5}`, the outcome is SUCCESS and the delivered JSON body's
`Data` field is `{"sum": 3.5}` — the float is delivered as a JSON
number, unchanged; natively-serializable non-string values are not
stringified. -/
theorem C4_float_delivered_as_number :
    deliveredField
      (handler_wrapper true true "f" sampleCreateEvent sampleContext
        (.ret (.dict [("sum", .float (7/2))])) Option.none) "Data"
      = some (Json.obj [("sum", Json.num (7/2))]) ∧
    deliveredField
      (handler_wrapper true true "f" sampleCreateEvent sampleContext
        (.ret (.dict [("sum", .float (7/2))])) Option.none) "Status"
      = some (Json.str "SUCCESS") :=
  ⟨rfl, rfl⟩

/-- Claim C1: when the handler returns a Finished status marker
(`Status.getFinished` of any status), no HTTP delivery happens during
that invocation, `handler_wrapper` returns the empty mapping (provided
the external `delete_log_group` call does not itself raise), and
`cfn_response` treats a Finished status as a noop. -/
theorem C1_finished_no_second_delivery (dl hsf : Bool) (name : String)
    (e : Event) (c : Context) (s : Status) (dlg : Option String)
    (hdlg : dlg = Option.none) :
    (handler_wrapper dl hsf name e c
        (.ret (.status (.fresh (Status.getFinished s)))) dlg).delivered
      = Option.none ∧
    (handler_wrapper dl hsf name e c
        (.ret (.status (.fresh (Status.getFinished s)))) dlg).retval
      = .ok (.dict []) ∧
    cfn_response e c (Status.getFinished s) (.dict []) Option.none
      = .ok Option.none := by
  subst hdlg
  cases hrt : e.RequestType == "Delete" with
  | false =>
      refine ⟨?_, ?_, rfl⟩ <;>
        simp [handler_wrapper, hrt, normalizeResult, truthy, finishStep,
          StatusLike.pyIsFinished, StatusRef.deref, Status.isFinished,
          Status.getFinished]
  | true =>
      cases s with
      | base v r =>
          cases hv : v == "SUCCESS" <;> cases dl <;>
            refine ⟨?_, ?_, rfl⟩ <;>
              simp [handler_wrapper, hrt, hv, normalizeResult, truthy,
                hideDeleteFailureStep, StatusLike.isFailedSingleton,
                StatusLike.pyIsSuccess, StatusRef.deref, Status.isSuccess,
                Status.getFinished, finishStep, StatusLike.pyIsFinished,
                Status.isFinished]
      | finished inner rr =>
          cases dl <;>
            refine ⟨?_, ?_, rfl⟩ <;>
              simp [handler_wrapper, hrt, normalizeResult, truthy,
                hideDeleteFailureStep, StatusLike.isFailedSingleton,
                StatusLike.pyIsSuccess, StatusRef.deref, Status.isSuccess,
                Status.getFinished, finishStep, StatusLike.pyIsFinished,
                Status.isFinished]

/-- Witness for C1 at a finished SUCCESS marker on a Delete request. -/
theorem C1_finished_no_second_delivery_witness :
    (handler_wrapper true true "f" sampleDeleteEvent sampleContext
        (.ret (.status (.fresh (Status.getFinished (Status.base "SUCCESS" Option.none)))))
        Option.none).delivered = Option.none ∧
    (handler_wrapper true true "f" sampleDeleteEvent sampleContext
        (.ret (.status (.fresh (Status.getFinished (Status.base "SUCCESS" Option.none)))))
        Option.none).retval = .ok (.dict []) ∧
    cfn_response sampleDeleteEvent sampleContext
        (Status.getFinished (Status.base "SUCCESS" Option.none)) (.dict []) Option.none
      = .ok Option.none :=
  C1_finished_no_second_delivery true true "f" sampleDeleteEvent sampleContext
    (Status.base "SUCCESS" Option.none) Option.none rfl

/-- Claim C8: an exception with message `msg` raised by the handler is
converted to a FAILED outcome whose reason text contains the handler's
name and the exception's message, with an empty result-data mapping; the
exception never escapes `handler_wrapper`, which returns the empty
mapping and delivers a FAILED response with empty `Data`. -/
theorem C8_exception_converted_to_failed (name msg : String) (dl hsf : Bool)
    (e : Event) (c : Context) (dlg : Option String) :
    normalizeResult name (.raise msg)
      = (.ref (.fresh (Status.base "FAILED"
          (some ("Function " ++ name ++ " failed due to exception \"" ++ msg ++ "\".")))),
         .dict []) ∧
    (∃ pre post,
        "Function " ++ name ++ " failed due to exception \"" ++ msg ++ "\"."
          = pre ++ name ++ post) ∧
    (∃ pre post,
        "Function " ++ name ++ " failed due to exception \"" ++ msg ++ "\"."
          = pre ++ msg ++ post) ∧
    (handler_wrapper dl hsf name e c (.raise msg) dlg).retval = .ok (.dict []) ∧
    deliveredField (handler_wrapper dl hsf name e c (.raise msg) dlg) "Status"
      = some (.str "FAILED") ∧
    deliveredField (handler_wrapper dl hsf name e c (.raise msg) dlg) "Data"
      = some (.obj []) := by
  refine ⟨rfl,
    ⟨"Function ", " failed due to exception \"" ++ msg ++ "\".", ?_⟩,
    ⟨"Function " ++ name ++ " failed due to exception \"", "\".", rfl⟩,
    ?_, ?_, ?_⟩
  · simp [String.append_assoc]
  all_goals
    cases hrt : e.RequestType == "Delete" <;>
      simp [handler_wrapper, hrt, normalizeResult, Status.getFailed,
        hideDeleteFailureStep, StatusLike.isFailedSingleton,
        StatusLike.pyIsSuccess, StatusRef.deref, Status.isSuccess,
        finishStep, StatusLike.pyIsFinished, Status.isFinished,
        cfn_response, pyToJson, pyToJsonFields, deliveredField,
        Json.getField]

end Cfnlambda
